import Mathlib

/-!
Shallow embedding of the Prior-AI backend analysis pipeline.

The definitions below are translated from the Python sources under
`backend/app`:

* `app/ml_services/recommender.py` — `RecommendationGenerator.generate`;
* `app/ml_services/similarity_scorer.py` — `SimilarityScorer.score_similarity`,
  `SimilarityScorer._keyword_matching_fallback`,
  `SimilarityScorer.score_multiple_patents`;
* `app/services/patent_searcher.py` — `PatentSearcher._build_query`,
  `PatentSearcher._format_patent`, `PatentSearcher.search`;
* `app/services/orchestrate.py` — the active `OrchestrateConductor`
  (`run_analysis`, `_run_skill`, `_run_orchestrate_workflow`, `_log_error`);
* `app/services/orchestrate_v3_1.py` — the alternative v3.1 conductor;
* `app/api/v1/analyses.py` — `run_analysis_workflow` (the save step);
* `app/api/v1/skills.py` — the `patentability-checker` skill endpoint.

Modelling conventions: Python floats are modelled as exact rationals (`ℚ`);
Python `round(x, 1)` is modelled as round-half-to-even at one decimal;
dictionaries whose keys are fixed by the producing code are modelled as
structures; provider calls (watsonx, Google Patents) are oracles passed in as
function arguments returning `Except`/an outcome type; database rows are
explicit state (`AnalysisRow`, `StepLog`) threaded through the workflow, with
a mutable log row modelled by the final value it reaches.  Opaque JSON
columns that no claim inspects (`extracted_claims`, `missing_elements`, the
stored `Patent` rows, timestamps, input/output summaries) are not modelled.
-/

namespace PriorAI

/-- Structured claims returned by `ClaimExtractor.extract` (the extractor
module itself is not in the sources; only the shape of its result, as
consumed by `orchestrate.py` and `similarity_scorer.py`, matters here). -/
structure Claims where
  background : String
  innovations : List String
  keywords : List String
  ipcClassifications : List String
deriving DecidableEq

/-- Result of `ClaimExtractor.assess_patentability` as consumed by the gate in
`orchestrate.py` (`isPatentable`, `confidence`; `missingElements` is stored
into an unmodelled JSON column). -/
structure Assessment where
  isPatentable : Bool
  confidence : ℚ
deriving DecidableEq

/-- Raw patent dictionary returned by the Google Patents API; every key is
optional because `_format_patent` reads each with a `.get` default. -/
structure RawPatent where
  publication_number : Option String
  title : Option String
  abstract : Option String
  claims : Option (List String)
  publication_date : Option String
  assignee : Option String
  inventors : Option (List String)
  ipc_classes : Option (List String)
  source : Option String
deriving DecidableEq

/-- Formatted patent dictionary produced by `PatentSearcher._format_patent`. -/
structure Patent where
  patentId : String
  title : String
  abstract : String
  claims : List String
  publicationDate : String
  assignee : String
  inventors : List String
  ipcClassifications : List String
  source : String
deriving DecidableEq

/-- Similarity result for one patent, as returned by
`SimilarityScorer.score_similarity`. -/
structure ScoreData where
  similarityScore : ℚ
  overlappingConcepts : List String
  keyDifferences : List String
deriving DecidableEq

/-- A patent merged with its similarity result (`{**patent, **score_data}` in
`score_multiple_patents`). -/
structure ScoredPatent where
  patent : Patent
  similarityScore : ℚ
  overlappingConcepts : List String
  keyDifferences : List String
deriving DecidableEq

/-- Python `round` to an integer: round half to even (banker's rounding). -/
def roundHalfEven (x : ℚ) : ℤ :=
  if x - ⌊x⌋ < 1 / 2 then ⌊x⌋
  else if 1 / 2 < x - ⌊x⌋ then ⌊x⌋ + 1
  else if ⌊x⌋ % 2 = 0 then ⌊x⌋ else ⌊x⌋ + 1

/-- Python `round(x, 1)`: round to one decimal place, half to even. -/
def round1 (x : ℚ) : ℚ := (roundHalfEven (10 * x) : ℚ) / 10

/-- Python `f"{x:.0f}"`: format with zero decimals (rounds half to even). -/
def fmt0 (x : ℚ) : String := toString (roundHalfEven x)

/-- Result dictionary of `RecommendationGenerator.generate`. -/
structure RecResult where
  noveltyScore : ℚ
  recommendation : String
  reasoning : String
deriving DecidableEq

/-- The `high_sim_count` expression of `RecommendationGenerator.generate`:
`sum(1 for p in scored_patents if p['similarityScore'] > 70)`. -/
def highSimCount (scoredPatents : List ScoredPatent) : ℕ :=
  (scoredPatents.filter (fun p => 70 < p.similarityScore)).length

/-- `RecommendationGenerator.generate` from `app/ml_services/recommender.py`.
The PRD formula `novelty = 100 - top_score*0.7 - high_sim_count*5` is clamped
with `max(0, min(100, novelty))`, thresholds are applied to the clamped value,
and the returned `noveltyScore` is `round(novelty, 1)`. -/
def generate (claims : Claims) (scoredPatents : List ScoredPatent) : RecResult :=
  match scoredPatents with
  | [] =>
    { noveltyScore := 100, recommendation := "pursue",
      reasoning := "No similar prior art found. Proceed with patent application." }
  | top :: rest =>
    let topScore := top.similarityScore
    let hsc : ℚ := highSimCount (top :: rest)
    let novelty0 := 100 - topScore * (7 / 10) - hsc * 5
    let novelty := max 0 (min 100 novelty0)
    if 70 ≤ novelty then
      { noveltyScore := round1 novelty, recommendation := "pursue",
        reasoning := "High novelty (" ++ fmt0 novelty ++ "%). Top match only " ++
          fmt0 topScore ++ "% similar. Strong patent potential." }
    else if 40 ≤ novelty then
      { noveltyScore := round1 novelty, recommendation := "reconsider",
        reasoning := "Medium novelty (" ++ fmt0 novelty ++ "%). " ++
          toString (highSimCount (top :: rest)) ++
          " highly similar patents found. Consider narrow claims." }
    else
      { noveltyScore := round1 novelty, recommendation := "reject",
        reasoning := "Low novelty (" ++ fmt0 novelty ++ "%). Very similar prior art exists (top: " ++
          fmt0 topScore ++ "%). Consider publication instead." }

/-- The novelty value as the spec's words describe it for a non-empty list:
`clamp(100 - topScore*0.7 - highSimCount*5, 0, 100)`, with no rounding.  This
is the spec-side definition used to compare against `generate`. -/
def spec_novelty (top : ScoredPatent) (rest : List ScoredPatent) : ℚ :=
  max 0 (min 100
    (100 - top.similarityScore * (7 / 10) - (highSimCount (top :: rest) : ℚ) * 5))

/-- Parsed JSON object from the watsonx.ai similarity response; each key is
read with a `.get` default in `score_similarity`. -/
structure ParsedSimilarity where
  similarity_score : Option ℚ
  overlapping_concepts : Option (List String)
  key_differences : Option (List String)
deriving DecidableEq

/-- Outcome of one watsonx.ai call in `score_similarity`: either the response
was generated and its JSON parsed (`ok`), or generation or parsing raised
(`failure` — the `except Exception` branch). -/
inductive LLMOutcome where
  | ok (parsed : ParsedSimilarity)
  | failure
deriving DecidableEq

/-- Python `str.split()` with no arguments: split on whitespace runs,
dropping empty pieces. -/
def pyWords (s : String) : List String :=
  (s.split (fun c => c.isWhitespace)).filter (fun w => w ≠ "")

/-- `SimilarityScorer._keyword_matching_fallback`: deterministic keyword
overlap between the innovation text and the patent title+abstract, score
`min(100, |common words| * 10)`. -/
def keyword_matching_fallback (claims : Claims) (patent : Patent) : ScoreData :=
  let innovationsText := (String.intercalate " " claims.innovations).toLower
  let patentText := (patent.title ++ " " ++ patent.abstract).toLower
  let commonWords :=
    (pyWords innovationsText).dedup.filter (fun w => w ∈ pyWords patentText)
  { similarityScore := min 100 ((commonWords.length : ℚ) * 10),
    overlappingConcepts := ["Keyword analysis fallback"],
    keyDifferences := ["Full semantic analysis unavailable"] }

/-- `SimilarityScorer.score_similarity`: ask the watsonx oracle; on success
use the parsed values (`similarity_score` defaulting to 50), on any failure
fall back to keyword matching. -/
def score_similarity (oracle : Claims → Patent → LLMOutcome)
    (claims : Claims) (patent : Patent) : ScoreData :=
  match oracle claims patent with
  | .ok parsed =>
    { similarityScore := parsed.similarity_score.getD 50,
      overlappingConcepts := parsed.overlapping_concepts.getD [],
      keyDifferences := parsed.key_differences.getD [] }
  | .failure => keyword_matching_fallback claims patent

/-- The dict merge `{**patent, **score_data}` in `score_multiple_patents`. -/
def mergeScore (patent : Patent) (s : ScoreData) : ScoredPatent :=
  { patent := patent, similarityScore := s.similarityScore,
    overlappingConcepts := s.overlappingConcepts,
    keyDifferences := s.keyDifferences }

/-- Comparison used by `scored.sort(key=lambda x: x['similarityScore'],
reverse=True)`: descending by score (stable, like Python's sort). -/
def scoreDescBool (a b : ScoredPatent) : Bool :=
  decide (b.similarityScore ≤ a.similarityScore)

/-- `SimilarityScorer.score_multiple_patents`: score every patent, merge, and
sort by similarity score descending. -/
def score_multiple_patents (oracle : Claims → Patent → LLMOutcome)
    (claims : Claims) (patents : List Patent) : List ScoredPatent :=
  (patents.map (fun p => mergeScore p (score_similarity oracle claims p))).mergeSort
    scoreDescBool

/-- `PatentSearcher._build_query`: combine the top five keywords and the IPC
codes, falling back to the fixed query "technology" when both are empty. -/
def build_query (keywords ipcCodes : List String) : String :=
  let topKeywords := keywords.take 5
  let keywordQuery :=
    if topKeywords.isEmpty then "" else String.intercalate " OR " topKeywords
  let ipcQuery :=
    if ipcCodes.isEmpty then ""
    else String.intercalate " OR " (ipcCodes.map (fun code => "IPC:" ++ code))
  if keywordQuery ≠ "" ∧ ipcQuery ≠ "" then
    "(" ++ keywordQuery ++ ") AND (" ++ ipcQuery ++ ")"
  else if keywordQuery ≠ "" then keywordQuery
  else if ipcQuery ≠ "" then ipcQuery
  else "technology"

/-- `PatentSearcher._format_patent`: normalise a raw API dictionary, filling
each missing key with its `.get` default. -/
def format_patent (p : RawPatent) : Patent :=
  { patentId := p.publication_number.getD "",
    title := p.title.getD "",
    abstract := p.abstract.getD "",
    claims := p.claims.getD [],
    publicationDate := p.publication_date.getD "",
    assignee := p.assignee.getD "",
    inventors := p.inventors.getD [],
    ipcClassifications := p.ipc_classes.getD [],
    source := p.source.getD "google" }

/-- `PatentSearcher.search`: build the query, call the Google Patents API
oracle with it, and format every result. -/
def search (googleApi : String → Nat → Except String (List RawPatent))
    (keywords ipcCodes : List String) (maxResults : Nat) :
    Except String (List Patent) :=
  (googleApi (build_query keywords ipcCodes) maxResults).map
    (fun ps => ps.map format_patent)

/-- One row of the `orchestrate_logs` table, modelled by the final value it
reaches (`_run_skill` creates it as "started" and updates the same row to its
terminal status before any later stage runs). -/
structure StepLog where
  skillName : String
  status : String
  errorMessage : Option String
deriving DecidableEq

/-- The fields of the `Analysis` row that the modelled code reads or writes
(status, patentability verdict/confidence, novelty score, recommendation,
reasoning, and whether `completed_at` was set). -/
structure AnalysisRow where
  status : String
  isPatentable : Option Bool
  patentabilityConfidence : Option ℚ
  noveltyScore : Option ℚ
  recommendation : Option String
  reasoning : Option String
  completedAt : Bool
deriving DecidableEq

/-- Workflow state: the analysis row plus the `orchestrate_logs` rows for this
analysis, in creation order. -/
structure WfState where
  analysis : AnalysisRow
  logs : List StepLog
deriving DecidableEq

/-- State at the start of a run: `create_analysis` stores the row with status
"processing" and no result fields, and no log rows exist. -/
def WfState.init : WfState :=
  ⟨⟨"processing", none, none, none, none, none, false⟩, []⟩

/-- Append a log row. -/
def addLog (st : WfState) (l : StepLog) : WfState :=
  { st with logs := st.logs ++ [l] }

/-- `OrchestrateConductor._run_skill`: create a log row for the stage, run the
stage, and leave the row "completed" on success or "failed" (with the error
text) on an exception, re-raising the exception. -/
def run_skill {α : Type} (st : WfState) (skillName : String)
    (outcome : Except String α) : WfState × Except String α :=
  match outcome with
  | .ok a => (addLog st ⟨skillName, "completed", none⟩, .ok a)
  | .error e => (addLog st ⟨skillName, "failed", some e⟩, .error e)

/-- `OrchestrateConductor._log_error`: append a "workflow_error" row marked
failed. -/
def log_error (st : WfState) (errorMessage : String) : WfState :=
  addLog st ⟨"workflow_error", "failed", some errorMessage⟩

/-- The keys of the results dictionary returned by a conductor run that the
save step in `run_analysis_workflow` (and v3.1's
`_update_analysis_from_results`) actually reads; a `none` field models an
absent key, read back with `.get`. -/
structure RunResults where
  noveltyScore : Option ℚ
  recommendation : Option String
  reasoning : Option String
  patentability : Option Assessment
deriving DecidableEq

/-- The external collaborators of a direct-strategy run: the patentability
assessor and claim extractor (their module is not in the sources; each is an
oracle from the document text to its outcome), the Google Patents API and the
watsonx similarity oracle. -/
structure DirectEnv where
  assessment : String → Except String Assessment
  extraction : String → Except String Claims
  googleApi : String → Nat → Except String (List RawPatent)
  llm : Claims → Patent → LLMOutcome

/-- The reasoning text the gate stores on the `Analysis` row in
`orchestrate.py` (also used by v3.1's `_update_analysis_from_results`). -/
def gateReasoningDb : String :=
  "Disclosure appears to be publishable research but not patentable. See patentability assessment for details."

/-- The reasoning value in the early-exit results dictionary of
`orchestrate.py`. -/
def gateReasoningResult : String :=
  "Based on patentability assessment, this disclosure lacks key elements required for a patent. Consider revising the disclosure or publishing as research instead."

/-- The classic (direct-strategy) branch of `OrchestrateConductor.run_analysis`
in `orchestrate.py`: assess patentability, gate, then extract claims, search,
score and recommend, each wrapped in `_run_skill`; any stage exception is
logged via `_log_error` and re-raised. -/
def classic_run (env : DirectEnv) (documentText : String) (st : WfState) :
    WfState × Except String RunResults :=
  match run_skill st "assess_patentability" (env.assessment documentText) with
  | (st1, .error e) => (log_error st1 e, .error e)
  | (st1, .ok patentability) =>
    let st2 : WfState := { st1 with analysis := { st1.analysis with
        isPatentable := some patentability.isPatentable,
        patentabilityConfidence := some patentability.confidence } }
    if patentability.isPatentable then
      match run_skill st2 "extract_claims" (env.extraction documentText) with
      | (st3, .error e) => (log_error st3 e, .error e)
      | (st3, .ok claims) =>
        match run_skill st3 "search_patents"
            (search env.googleApi claims.keywords claims.ipcClassifications 100) with
        | (st4, .error e) => (log_error st4 e, .error e)
        | (st4, .ok patents) =>
          match run_skill st4 "score_similarity"
              (.ok (score_multiple_patents env.llm claims patents)) with
          | (st5, .error e) => (log_error st5 e, .error e)
          | (st5, .ok scoredPatents) =>
            match run_skill st5 "generate_recommendation"
                (.ok (generate claims scoredPatents)) with
            | (st6, .error e) => (log_error st6 e, .error e)
            | (st6, .ok recommendation) =>
              (st6, .ok { noveltyScore := some recommendation.noveltyScore,
                          recommendation := some recommendation.recommendation,
                          reasoning := some recommendation.reasoning,
                          patentability := some patentability })
    else
      let st3 : WfState := { st2 with analysis := { st2.analysis with
          status := "completed", reasoning := some gateReasoningDb,
          recommendation := some "reject", noveltyScore := some 0,
          completedAt := true } }
      (st3, .ok { noveltyScore := none, recommendation := some "reject",
                  reasoning := some gateReasoningResult,
                  patentability := some patentability })

/-- The orchestrate result consumed by `_run_orchestrate_workflow` in
`orchestrate.py`; the nested dictionary lookups are flattened, with the
code's `.get` defaults (`is_patentable` default True, `confidence` default 0,
`overall_novelty_score` default 0) applied at construction. -/
structure OrchV30Result where
  isPatentable : Bool
  confidence : ℚ
  overallNoveltyScore : ℚ
deriving DecidableEq

/-- `OrchestrateConductor._run_orchestrate_workflow` in `orchestrate.py`: one
delegated call; on success map its bundle onto the analysis row (novelty
scaled to 0–1, recommendation proceed/revise/reject) and mark it completed;
on any exception append a `workflow_error` row and re-raise — there is no
fallback to the direct strategy in this conductor. -/
def run_orchestrate_workflow (orchestrateOutcome : Except String OrchV30Result)
    (st : WfState) : WfState × Except String RunResults :=
  match orchestrateOutcome with
  | .error e =>
    (log_error st ("Orchestrate workflow error: " ++ e), .error e)
  | .ok r =>
    let noveltyScaled : ℚ := r.overallNoveltyScore / 100
    let recReason : String × String :=
      if !r.isPatentable then
        ("reject", "Disclosure lacks patentable elements per USPTO requirements")
      else if 70 ≤ r.overallNoveltyScore then
        ("proceed", "High novelty score indicates strong patentability")
      else if 50 ≤ r.overallNoveltyScore then
        ("revise", "Moderate novelty - revision recommended to strengthen claims")
      else
        ("reject", "Low novelty score due to significant prior art overlap")
    let st1 : WfState := { st with analysis := { st.analysis with
        isPatentable := some r.isPatentable,
        patentabilityConfidence := some r.confidence,
        noveltyScore := some noveltyScaled,
        recommendation := some recReason.1,
        reasoning := some recReason.2,
        status := "completed", completedAt := true } }
    (st1, .ok { noveltyScore := some noveltyScaled,
                recommendation := some recReason.1,
                reasoning := some recReason.2,
                patentability := some ⟨r.isPatentable, r.confidence⟩ })

/-- Strategy selection state of the active conductor: the
`USE_WATSONX_ORCHESTRATE` toggle and whether the orchestrate client reports
itself configured. -/
structure ConductorConfig where
  useOrchestrate : Bool
  orchestrateConfigured : Bool
deriving DecidableEq

/-- `OrchestrateConductor.run_analysis` in `orchestrate.py` (the conductor
exported by `app.services`): delegate when orchestrate is enabled and
configured, otherwise run the classic direct workflow. -/
def run_analysis (cfg : ConductorConfig)
    (orchestrateOutcome : Except String OrchV30Result) (env : DirectEnv)
    (documentText : String) (st : WfState) : WfState × Except String RunResults :=
  if cfg.useOrchestrate && cfg.orchestrateConfigured then
    run_orchestrate_workflow orchestrateOutcome st
  else
    classic_run env documentText st

/-- The save step of `run_analysis_workflow` in `app/api/v1/analyses.py`: on a
normal conductor return, overwrite the result fields from the results
dictionary (each read with `.get`, so an absent key stores NULL) and mark the
analysis completed; on an exception mark it failed and store the error. -/
def save_results (st : WfState) (outcome : Except String RunResults) : WfState :=
  match outcome with
  | .ok results =>
    { st with analysis := { st.analysis with
        noveltyScore := results.noveltyScore,
        recommendation := results.recommendation,
        reasoning := results.reasoning,
        status := "completed", completedAt := true } }
  | .error e =>
    { st with analysis := { st.analysis with
        status := "failed",
        reasoning := some ("Analysis failed: " ++ e) } }

/-- `run_analysis_workflow` in `app/api/v1/analyses.py`, from the point where
the document text is available: run the conductor on a fresh state, then
apply the save step. -/
def run_analysis_workflow (cfg : ConductorConfig)
    (orchestrateOutcome : Except String OrchV30Result) (env : DirectEnv)
    (documentText : String) : WfState :=
  let r := run_analysis cfg orchestrateOutcome env documentText WfState.init
  save_results r.1 r.2

/-- The gate reasoning used by the v3.1 fallback path (shorter than the one in
`orchestrate.py`). -/
def v31FallbackGateReasoning : String :=
  "Disclosure appears to be publishable research but not patentable."

/-- Response of the v3.1 orchestrate client: `executionId`, a `status` string
(read with default "unknown"), and the `results` dictionary; `none` models an
absent or empty (falsy) `results`. -/
structure OrchV31Response where
  executionId : Option String
  status : String
  results : Option RunResults
deriving DecidableEq

/-- `OrchestrateConductor._update_analysis_from_results` in
`orchestrate_v3_1.py`: store the patentability assessment (defaults: patentable
True, confidence 50); when not patentable mark rejected with novelty 0,
otherwise store novelty/recommendation/reasoning (defaults 0 / "pending" / "")
and mark completed. -/
def v31_update_analysis_from_results (analysis : AnalysisRow)
    (results : RunResults) : AnalysisRow :=
  let isPat := (results.patentability.map (fun a => a.isPatentable)).getD true
  let conf := (results.patentability.map (fun a => a.confidence)).getD 50
  let a1 := { analysis with
    isPatentable := some isPat, patentabilityConfidence := some conf }
  if !isPat then
    { a1 with
      status := "completed", recommendation := some "reject",
      reasoning := some gateReasoningDb, noveltyScore := some 0,
      completedAt := true }
  else
    { a1 with
      noveltyScore := some (results.noveltyScore.getD 0),
      recommendation := some (results.recommendation.getD "pending"),
      reasoning := some (results.reasoning.getD ""),
      status := "completed", completedAt := true }

/-- `OrchestrateConductor._run_analysis_fallback` in `orchestrate_v3_1.py`:
direct service calls, identical in structure to the classic branch of
`orchestrate.py` but with v3.1's early-exit dictionary (which carries no
reasoning and no novelty score) and gate reasoning text. -/
def v31_run_analysis_fallback (env : DirectEnv) (documentText : String)
    (st : WfState) : WfState × Except String RunResults :=
  match run_skill st "assess_patentability" (env.assessment documentText) with
  | (st1, .error e) => (log_error st1 e, .error e)
  | (st1, .ok patentability) =>
    let st2 : WfState := { st1 with analysis := { st1.analysis with
        isPatentable := some patentability.isPatentable,
        patentabilityConfidence := some patentability.confidence } }
    if patentability.isPatentable then
      match run_skill st2 "extract_claims" (env.extraction documentText) with
      | (st3, .error e) => (log_error st3 e, .error e)
      | (st3, .ok claims) =>
        match run_skill st3 "search_patents"
            (search env.googleApi claims.keywords claims.ipcClassifications 100) with
        | (st4, .error e) => (log_error st4 e, .error e)
        | (st4, .ok patents) =>
          match run_skill st4 "score_similarity"
              (.ok (score_multiple_patents env.llm claims patents)) with
          | (st5, .error e) => (log_error st5 e, .error e)
          | (st5, .ok scoredPatents) =>
            match run_skill st5 "generate_recommendation"
                (.ok (generate claims scoredPatents)) with
            | (st6, .error e) => (log_error st6 e, .error e)
            | (st6, .ok recommendation) =>
              (st6, .ok { noveltyScore := some recommendation.noveltyScore,
                          recommendation := some recommendation.recommendation,
                          reasoning := some recommendation.reasoning,
                          patentability := some patentability })
    else
      let st3 : WfState := { st2 with analysis := { st2.analysis with
          status := "completed", recommendation := some "reject",
          reasoning := some v31FallbackGateReasoning,
          noveltyScore := some 0, completedAt := true } }
      (st3, .ok { noveltyScore := none, recommendation := some "reject",
                  reasoning := none, patentability := some patentability })

/-- `OrchestrateConductor.run_analysis` in `orchestrate_v3_1.py`: when
orchestrate is not configured, run the direct fallback; otherwise create an
`orchestrate_workflow` log row, call the orchestrate client, and on any
exception append a `workflow_error` row (the workflow row never reaches a
terminal status on that path) and fall back to direct service calls.  On a
response, the workflow row ends "completed" or "running" and the analysis is
updated from the response's results when they are non-empty. -/
def v31_run_analysis (configured : Bool)
    (orchestrateOutcome : Except String OrchV31Response) (env : DirectEnv)
    (documentText : String) (st : WfState) : WfState × Except String RunResults :=
  if !configured then
    v31_run_analysis_fallback env documentText st
  else
    match orchestrateOutcome with
    | .error e =>
      let st1 := addLog st ⟨"orchestrate_workflow", "started", none⟩
      let st2 := log_error st1 e
      v31_run_analysis_fallback env documentText st2
    | .ok resp =>
      let wfStatus := if resp.status = "completed" then "completed" else "running"
      let st1 := addLog st ⟨"orchestrate_workflow", wfStatus, none⟩
      let st2 :=
        match resp.results with
        | some results =>
          { st1 with analysis := v31_update_analysis_from_results st1.analysis results }
        | none => st1
      (st2, .ok (resp.results.getD ⟨none, none, none, none⟩))

/-- The `patentability-checker` skill endpoint in `app/api/v1/skills.py`:
empty (falsy) `documentText` raises `ValueError("documentText is required")`
before the assessor is consulted, surfaced as an HTTP 500 whose detail
prefixes the message; otherwise the assessor is called and its failures are
surfaced the same way.  Skill endpoints write no `orchestrate_logs` rows. -/
def patentability_checker_skill (assess : String → Except String Assessment)
    (documentText : String) : Except String Assessment :=
  if documentText = "" then
    .error "Patentability assessment failed: documentText is required"
  else
    match assess documentText with
    | .ok r => .ok r
    | .error e => .error ("Patentability assessment failed: " ++ e)

/-! ### Concrete fixtures used by counterexamples and witnesses -/

/-- A concrete formatted patent. -/
def patentA : Patent :=
  ⟨"US0000001", "solar panel", "a solar panel with improved cells", [],
    "2020-01-01", "Acme", [], [], "google"⟩

/-- Concrete extracted claims. -/
def claimsA : Claims := ⟨"", ["improved solar cells"], ["solar"], []⟩

/-- Concrete extracted claims with a keyword, for workflow fixtures. -/
def claimsB : Claims := ⟨"bg", ["a widget"], ["widget"], []⟩

/-- `patentA` carrying a given similarity score. -/
def scoredWith (score : ℚ) : ScoredPatent := ⟨patentA, score, [], []⟩

/-- A watsonx oracle that fails on every candidate. -/
def oracleFailAll : Claims → Patent → LLMOutcome := fun _ _ => .failure

/-- A watsonx oracle whose parsed response reports `similarity_score` 150. -/
def oracle150 : Claims → Patent → LLMOutcome :=
  fun _ _ => .ok ⟨some 150, none, none⟩

/-- Direct environment whose assessor reports not patentable (confidence 30);
later stages are unreachable and would fail if consulted. -/
def envGate : DirectEnv :=
  { assessment := fun _ => .ok ⟨false, 30⟩,
    extraction := fun _ => .error "unreachable",
    googleApi := fun _ _ => .error "unreachable",
    llm := fun _ _ => .failure }

/-- Direct environment in which every direct stage succeeds (patentable,
confidence 80, no search results). -/
def envDirectOk : DirectEnv :=
  { assessment := fun _ => .ok ⟨true, 80⟩,
    extraction := fun _ => .ok claimsB,
    googleApi := fun _ _ => .ok [],
    llm := fun _ _ => .failure }

/-- Direct environment whose assessor reports not patentable with
confidence 0; used for runs on empty disclosure text. -/
def envEmptyText : DirectEnv :=
  { assessment := fun _ => .ok ⟨false, 0⟩,
    extraction := fun _ => .error "unreachable",
    googleApi := fun _ _ => .error "unreachable",
    llm := fun _ _ => .failure }

/-! ### Helper lemmas -/

theorem roundHalfEven_le (x : ℚ) : (roundHalfEven x : ℚ) ≤ x + 1 / 2 := by
  unfold roundHalfEven
  have h1 : (⌊x⌋ : ℚ) ≤ x := Int.floor_le x
  have h2 : x < ⌊x⌋ + 1 := Int.lt_floor_add_one x
  split_ifs with ha hb hc <;> push_cast <;> linarith

theorem le_roundHalfEven (x : ℚ) : x - 1 / 2 ≤ (roundHalfEven x : ℚ) := by
  unfold roundHalfEven
  have h1 : (⌊x⌋ : ℚ) ≤ x := Int.floor_le x
  have h2 : x < ⌊x⌋ + 1 := Int.lt_floor_add_one x
  split_ifs with ha hb hc <;> push_cast <;> linarith

theorem roundHalfEven_mono {x y : ℚ} (h : x ≤ y) :
    roundHalfEven x ≤ roundHalfEven y := by
  by_contra hlt
  push_neg at hlt
  have h1 : (roundHalfEven x : ℚ) ≤ x + 1 / 2 := roundHalfEven_le x
  have h2 : y - 1 / 2 ≤ (roundHalfEven y : ℚ) := le_roundHalfEven y
  have h3 : (roundHalfEven y : ℚ) + 1 ≤ (roundHalfEven x : ℚ) := by
    exact_mod_cast Int.add_one_le_iff.mpr hlt
  have hxy : x = y := le_antisymm h (by linarith)
  subst hxy
  exact absurd hlt (lt_irrefl _)

theorem round1_mono {x y : ℚ} (h : x ≤ y) : round1 x ≤ round1 y := by
  unfold round1
  have h10 : roundHalfEven (10 * x) ≤ roundHalfEven (10 * y) :=
    roundHalfEven_mono (by linarith)
  have hc : ((roundHalfEven (10 * x) : ℚ)) ≤ (roundHalfEven (10 * y) : ℚ) := by
    exact_mod_cast h10
  linarith

theorem generate_cons_noveltyScore (claims : Claims) (top : ScoredPatent)
    (rest : List ScoredPatent) :
    (generate claims (top :: rest)).noveltyScore = round1 (spec_novelty top rest) := by
  simp only [generate, spec_novelty]
  split_ifs <;> rfl

theorem generate_cons_recommendation (claims : Claims) (top : ScoredPatent)
    (rest : List ScoredPatent) :
    (generate claims (top :: rest)).recommendation =
      (if 70 ≤ spec_novelty top rest then "pursue"
       else if 40 ≤ spec_novelty top rest then "reconsider" else "reject") := by
  simp only [generate, spec_novelty]
  split_ifs <;> rfl

/-! ### Claim theorems -/

/-- C1 counterexample: the claim says `generate` returns
`noveltyScore = clamp(100 - topScore*0.7 - highSimCount*5, 0, 100)`, but the
code returns `round(novelty, 1)`; at a single candidate with score 1/16 the
clamped value is 99.95625 while the returned score is 100. -/
theorem generate_noveltyScore_ne_clamp :
    ¬ ((generate claimsA [scoredWith (1 / 16)]).noveltyScore =
        spec_novelty (scoredWith (1 / 16)) []) := by
  have hlt : ¬ (70 : ℚ) < 1 / 16 := by norm_num
  have hcount : highSimCount [scoredWith (1 / 16)] = 0 := by
    simp [highSimCount, scoredWith, hlt]
    norm_num
  have hspec : spec_novelty (scoredWith (1 / 16)) [] = 15993 / 160 := by
    unfold spec_novelty
    rw [hcount]
    norm_num [scoredWith, min_def, max_def]
  have hfloor : ⌊(10 : ℚ) * (15993 / 160)⌋ = 999 := by
    rw [Int.floor_eq_iff]
    norm_num
  have hround : round1 (15993 / 160) = 100 := by
    unfold round1 roundHalfEven
    rw [hfloor]
    norm_num
  rw [generate_cons_noveltyScore, hspec, hround]
  norm_num

/-- C1 (amended): for every non-empty scored list, `generate` returns
`noveltyScore` equal to the clamped novelty `clamp(100 - topScore*0.7 -
highSimCount*5, 0, 100)` rounded to one decimal place (half to even), and the
recommendation is `pursue`/`reconsider`/`reject` by the 70/40 thresholds
applied to the unrounded clamped value. -/
theorem generate_rounds_clamped_novelty (claims : Claims) (top : ScoredPatent)
    (rest : List ScoredPatent) :
    (generate claims (top :: rest)).noveltyScore = round1 (spec_novelty top rest) ∧
    (generate claims (top :: rest)).recommendation =
      (if 70 ≤ spec_novelty top rest then "pursue"
       else if 40 ≤ spec_novelty top rest then "reconsider" else "reject") :=
  ⟨generate_cons_noveltyScore claims top rest,
   generate_cons_recommendation claims top rest⟩

/-- C7: on an empty candidate list, `generate` returns novelty 100 and
recommendation `pursue`, for every claims input. -/
theorem generate_empty_pursues (claims : Claims) :
    (generate claims []).noveltyScore = 100 ∧
    (generate claims []).recommendation = "pursue" :=
  ⟨rfl, rfl⟩

/-- C8: holding `highSimCount` fixed, a first candidate with a greater or
equal top score never yields a greater returned novelty score. -/
theorem generate_novelty_antitone_in_top_score (claims : Claims)
    (t1 t2 : ScoredPatent) (r1 r2 : List ScoredPatent)
    (hcount : highSimCount (t1 :: r1) = highSimCount (t2 :: r2))
    (htop : t1.similarityScore ≤ t2.similarityScore) :
    (generate claims (t2 :: r2)).noveltyScore ≤
      (generate claims (t1 :: r1)).noveltyScore := by
  rw [generate_cons_noveltyScore, generate_cons_noveltyScore]
  apply round1_mono
  unfold spec_novelty
  have hc : (highSimCount (t1 :: r1) : ℚ) = (highSimCount (t2 :: r2) : ℚ) := by
    exact_mod_cast congrArg Nat.cast hcount
  rw [← hc]
  have hinner :
      100 - t2.similarityScore * (7 / 10) - (highSimCount (t1 :: r1) : ℚ) * 5 ≤
        100 - t1.similarityScore * (7 / 10) - (highSimCount (t1 :: r1) : ℚ) * 5 := by
    linarith
  exact max_le_max le_rfl (min_le_min le_rfl hinner)

/-- C8 witness: concrete single-candidate lists with scores 50 and 60. -/
theorem generate_novelty_antitone_in_top_score_witness :
    highSimCount [scoredWith 50] = highSimCount [scoredWith 60] ∧
    (scoredWith 50).similarityScore ≤ (scoredWith 60).similarityScore ∧
    (generate claimsA [scoredWith 60]).noveltyScore ≤
      (generate claimsA [scoredWith 50]).noveltyScore :=
  ⟨by decide, by decide,
    generate_novelty_antitone_in_top_score claimsA (scoredWith 50)
      (scoredWith 60) [] [] (by decide) (by decide)⟩

/-- C5: the list returned by `score_multiple_patents` is non-increasing in
`similarityScore`, for every oracle, claims and patent list. -/
theorem score_multiple_patents_sorted_desc (oracle : Claims → Patent → LLMOutcome)
    (claims : Claims) (patents : List Patent) :
    (score_multiple_patents oracle claims patents).Pairwise
      (fun a b => b.similarityScore ≤ a.similarityScore) := by
  unfold score_multiple_patents
  have htrans : ∀ (a b c : ScoredPatent),
      scoreDescBool a b → scoreDescBool b c → scoreDescBool a c := by
    intro a b c hab hbc
    simp only [scoreDescBool, decide_eq_true_eq] at *
    exact le_trans hbc hab
  have htotal : ∀ (a b : ScoredPatent), scoreDescBool a b || scoreDescBool b a := by
    intro a b
    simp only [scoreDescBool, Bool.or_eq_true, decide_eq_true_eq]
    exact le_total b.similarityScore a.similarityScore
  exact (List.sorted_mergeSort htrans htotal _).imp
    (fun h => by simpa [scoreDescBool] using h)

/-- C4: a watsonx failure on one candidate of a batch is recovered by the
keyword fallback for that candidate only: the scored list has one entry per
input patent (a permutation of the per-candidate scores), the failed
candidate appears with its heuristic score, and `_run_skill` records the
batch stage as completed, returning normally. -/
theorem scorer_failure_recovers_with_fallback (oracle : Claims → Patent → LLMOutcome)
    (claims : Claims) (patents : List Patent) (p : Patent) (hp : p ∈ patents)
    (hfail : oracle claims p = .failure) (st : WfState) :
    (score_multiple_patents oracle claims patents).length = patents.length ∧
    (score_multiple_patents oracle claims patents).Perm
      (patents.map (fun q => mergeScore q (score_similarity oracle claims q))) ∧
    score_similarity oracle claims p = keyword_matching_fallback claims p ∧
    mergeScore p (keyword_matching_fallback claims p) ∈
      score_multiple_patents oracle claims patents ∧
    run_skill st "score_similarity"
        (.ok (score_multiple_patents oracle claims patents)) =
      (addLog st ⟨"score_similarity", "completed", none⟩,
        .ok (score_multiple_patents oracle claims patents)) := by
  have hfb : score_similarity oracle claims p = keyword_matching_fallback claims p := by
    unfold score_similarity
    rw [hfail]
  refine ⟨?_, ?_, hfb, ?_, rfl⟩
  · unfold score_multiple_patents
    rw [List.length_mergeSort, List.length_map]
  · unfold score_multiple_patents
    exact List.mergeSort_perm _ _
  · unfold score_multiple_patents
    rw [List.mem_mergeSort, ← hfb]
    exact List.mem_map_of_mem _ hp

/-- C4 witness: a single-candidate batch whose oracle fails. -/
theorem scorer_failure_recovers_with_fallback_witness :
    patentA ∈ [patentA] ∧ oracleFailAll claimsA patentA = .failure ∧
    mergeScore patentA (keyword_matching_fallback claimsA patentA) ∈
      score_multiple_patents oracleFailAll claimsA [patentA] :=
  ⟨by decide, rfl,
    (scorer_failure_recovers_with_fallback oracleFailAll claimsA [patentA]
      patentA (by decide) rfl WfState.init).2.2.2.1⟩

/-- C6 counterexample: the LLM path does not clamp — an oracle whose parsed
response reports `similarity_score` 150 yields a similarityScore of 150,
outside [0, 100]. -/
theorem llm_score_can_exceed_100 :
    ¬ ((score_similarity oracle150 claimsA patentA).similarityScore ≤ 100) := by
  decide

/-- C6 (amended): the keyword-overlap fallback always yields a score in
[0, 100]; the LLM path returns exactly the provider-parsed value (default 50
when the key is absent), so its score is in [0, 100] only when that value
is. -/
theorem similarity_score_bounds (oracle : Claims → Patent → LLMOutcome)
    (claims : Claims) (patent : Patent) :
    (0 ≤ (keyword_matching_fallback claims patent).similarityScore ∧
      (keyword_matching_fallback claims patent).similarityScore ≤ 100) ∧
    (oracle claims patent = .failure →
      score_similarity oracle claims patent = keyword_matching_fallback claims patent) ∧
    (∀ parsed, oracle claims patent = .ok parsed →
      (score_similarity oracle claims patent).similarityScore =
        parsed.similarity_score.getD 50) := by
  refine ⟨⟨?_, ?_⟩, ?_, ?_⟩
  · unfold keyword_matching_fallback
    exact le_min (by norm_num) (by positivity)
  · unfold keyword_matching_fallback
    exact min_le_left _ _
  · intro h
    unfold score_similarity
    rw [h]
  · intro parsed h
    unfold score_similarity
    rw [h]

/-- C6 witness: the fallback bound at concrete inputs, the fallback equation
for an always-failing oracle, and the identity LLM passthrough for the
150-scoring oracle. -/
theorem similarity_score_bounds_witness :
    (0 ≤ (keyword_matching_fallback claimsA patentA).similarityScore ∧
      (keyword_matching_fallback claimsA patentA).similarityScore ≤ 100) ∧
    score_similarity oracleFailAll claimsA patentA =
      keyword_matching_fallback claimsA patentA ∧
    (score_similarity oracle150 claimsA patentA).similarityScore =
      (⟨some 150, none, none⟩ : ParsedSimilarity).similarity_score.getD 50 :=
  ⟨(similarity_score_bounds oracleFailAll claimsA patentA).1,
    (similarity_score_bounds oracleFailAll claimsA patentA).2.1 rfl,
    (similarity_score_bounds oracle150 claimsA patentA).2.2
      ⟨some 150, none, none⟩ rfl⟩

/-- C10: when both the keyword list and the classification list are empty,
`PatentSearcher.search` still issues the query, using the fixed fallback
query string "technology". -/
theorem search_empty_inputs_uses_technology_query
    (googleApi : String → Nat → Except String (List RawPatent)) (maxResults : Nat) :
    build_query [] [] = "technology" ∧
    search googleApi [] [] maxResults =
      (googleApi "technology" maxResults).map (fun ps => ps.map format_patent) :=
  ⟨rfl, rfl⟩

/-- C2 (evaluation at the failing input): a classic-strategy run whose
assessor reports not patentable terminates early — status "completed",
recommendation "reject", a fixed reasoning message, and exactly one StepLog
(assessment only) — but the final persisted novelty score is NULL, not 0: the
gate writes 0.0, and the save step of `run_analysis_workflow` then overwrites
it with `results.get('noveltyScore')`, a key absent from the early-exit
dictionary. -/
theorem gate_early_exit_loses_novelty_score :
    run_analysis_workflow ⟨false, false⟩ (.error "unused") envGate
        "some disclosure text" =
      ⟨⟨"completed", some false, some 30, none, some "reject",
        some gateReasoningResult, true⟩,
       [⟨"assess_patentability", "completed", none⟩]⟩ :=
  rfl

/-- C3 counterexample: in the active conductor (`orchestrate.py`, the one
exported by `app.services`), a failing delegated call is logged as a
`workflow_error` and re-raised — the run ends "failed", not "completed", even
though every direct-strategy stage would succeed. -/
theorem delegated_failure_fails_active_run :
    run_analysis_workflow ⟨true, true⟩ (.error "orchestrate down") envDirectOk
        "text" =
      ⟨⟨"failed", none, none, none, none,
        some "Analysis failed: orchestrate down", false⟩,
       [⟨"workflow_error", "failed",
         some "Orchestrate workflow error: orchestrate down"⟩]⟩ ∧
    ¬ ((run_analysis_workflow ⟨true, true⟩ (.error "orchestrate down")
        envDirectOk "text").analysis.status = "completed") :=
  ⟨rfl, by decide⟩

/-- C3 (amended): only the v3.1 conductor (`orchestrate_v3_1.py`) falls back:
there, when the delegated call fails and the direct stages succeed (patentable
path shown), the run completes with the direct strategy — the conductor
returns the direct-strategy results, the saved analysis ends "completed", and
the log trail is the failed delegation followed by the five direct stages. -/
theorem v31_delegated_failure_falls_back_to_direct (a : Assessment)
    (ha : a.isPatentable = true) (c : Claims) (rs : List RawPatent)
    (llm : Claims → Patent → LLMOutcome) (e documentText : String) :
    (v31_run_analysis true (.error e)
        ⟨fun _ => .ok a, fun _ => .ok c, fun _ _ => .ok rs, llm⟩
        documentText WfState.init).2 =
      .ok ⟨some (generate c (score_multiple_patents llm c (rs.map format_patent))).noveltyScore,
           some (generate c (score_multiple_patents llm c (rs.map format_patent))).recommendation,
           some (generate c (score_multiple_patents llm c (rs.map format_patent))).reasoning,
           some a⟩ ∧
    (save_results
        (v31_run_analysis true (.error e)
          ⟨fun _ => .ok a, fun _ => .ok c, fun _ _ => .ok rs, llm⟩
          documentText WfState.init).1
        (v31_run_analysis true (.error e)
          ⟨fun _ => .ok a, fun _ => .ok c, fun _ _ => .ok rs, llm⟩
          documentText WfState.init).2).analysis.status = "completed" ∧
    (v31_run_analysis true (.error e)
        ⟨fun _ => .ok a, fun _ => .ok c, fun _ _ => .ok rs, llm⟩
        documentText WfState.init).1.logs =
      [⟨"orchestrate_workflow", "started", none⟩,
       ⟨"workflow_error", "failed", some e⟩,
       ⟨"assess_patentability", "completed", none⟩,
       ⟨"extract_claims", "completed", none⟩,
       ⟨"search_patents", "completed", none⟩,
       ⟨"score_similarity", "completed", none⟩,
       ⟨"generate_recommendation", "completed", none⟩] := by
  obtain ⟨ip, conf⟩ := a
  have hip : ip = true := ha
  subst hip
  exact ⟨rfl, rfl, rfl⟩

/-- C3 witness: the fallback at a concrete failing delegation. -/
theorem v31_delegated_failure_falls_back_to_direct_witness :
    (⟨true, 80⟩ : Assessment).isPatentable = true ∧
    (save_results
        (v31_run_analysis true (.error "boom")
          ⟨fun _ => .ok ⟨true, 80⟩, fun _ => .ok claimsB, fun _ _ => .ok [],
            oracleFailAll⟩ "t" WfState.init).1
        (v31_run_analysis true (.error "boom")
          ⟨fun _ => .ok ⟨true, 80⟩, fun _ => .ok claimsB, fun _ _ => .ok [],
            oracleFailAll⟩ "t" WfState.init).2).analysis.status = "completed" :=
  ⟨rfl,
    (v31_delegated_failure_falls_back_to_direct ⟨true, 80⟩ rfl claimsB []
      oracleFailAll "boom" "t").2.1⟩

/-- C9 counterexample: a run of the workflow engine on empty disclosure text
is not rejected before the pipeline starts — the assessment stage executes
and its StepLog row is written. -/
theorem empty_text_run_still_writes_steplog :
    ¬ ((run_analysis_workflow ⟨false, false⟩ (.error "unused") envEmptyText
        "").logs = []) := by
  decide

/-- C9 (amended): empty disclosure text is rejected, with no StepLog and
without consulting the assessor, only at the Orchestrate skill boundary
(`patentability-checker` raises "documentText is required"); the workflow
engine itself performs no empty-text validation and writes an
`assess_patentability` StepLog before the assessor outcome matters. -/
theorem empty_text_rejected_only_at_skill_boundary :
    (∀ assess : String → Except String Assessment,
      patentability_checker_skill assess "" =
        .error "Patentability assessment failed: documentText is required") ∧
    (run_analysis_workflow ⟨false, false⟩ (.error "unused") envEmptyText
        "").logs = [⟨"assess_patentability", "completed", none⟩] :=
  ⟨fun _ => rfl, rfl⟩

end PriorAI
